import Mathlib

/-!
Shallow embedding of the meme_launcher bonding-curve program
(programs/meme_launcher/src/lib.rs).

Machine integers are modelled as Nat with explicit bounds: u64 values are
Nat below U64_MOD, the widened u128 accumulator of calculate_price is Nat
checked against U128_MOD, and the unchecked Rust addition
`launch.total_supply += amount` (release-mode wrapping semantics) is
modelled as addition modulo U64_MOD.  Fallible operations return Except.
An Except.error result models a failed Solana instruction: the transaction
aborts and no on-chain state changes, so the error branches carry no state.
-/

namespace MemeLauncher

/-- Modulus of the 64-bit unsigned integer type. -/
def U64_MOD : Nat := 2 ^ 64

/-- Modulus of the 128-bit unsigned integer type. -/
def U128_MOD : Nat := 2 ^ 128

/-- Error codes of the program (enum LaunchError in lib.rs). -/
inductive LaunchError where
  | launchInactive
  | invalidPriceCalculation
deriving DecidableEq

/-- The persistent Launch account (struct Launch in lib.rs).  Pubkeys are
modelled as abstract Nat identifiers. -/
structure Launch where
  creator : Nat
  mint : Nat
  name : String
  symbol : String
  initial_supply : Nat
  total_supply : Nat
  curve_ratio : Nat
  is_active : Bool
deriving DecidableEq

/-- Rust u128::checked_mul on Nat operands: some of the product when it fits
in 128 bits, none on overflow. -/
def checked_mul_u128 (x y : Nat) : Option Nat :=
  if x * y < U128_MOD then some (x * y) else none

/-- Embedding of fn calculate_price (lib.rs lines 201-210): widen
current_supply and curve_ratio to u128, checked-multiply them, checked-multiply
by amount, then narrow to u64 with a range check; any failure is
InvalidPriceCalculation. -/
def calculate_price (current_supply amount curve_ratio : Nat) :
    Except LaunchError Nat :=
  match checked_mul_u128 current_supply curve_ratio with
  | none => Except.error LaunchError.invalidPriceCalculation
  | some p =>
    match checked_mul_u128 p amount with
    | none => Except.error LaunchError.invalidPriceCalculation
    | some price =>
      if price < U64_MOD then Except.ok price
      else Except.error LaunchError.invalidPriceCalculation

/-- Result of initialize_launch: the persisted Launch account and the token
balance minted into the creator's associated token account. -/
structure InitResult where
  launch : Launch
  creator_token_balance : Nat
deriving DecidableEq

/-- Embedding of initialize_launch (lib.rs lines 14-47): persist a Launch
with total_supply = initial_supply and is_active = true, and mint
initial_supply units to the creator's token account (the mint is fresh, so
the SPL mint_to of a u64 amount into supply 0 cannot fail). -/
def initialize_launch (creator mint : Nat) (name symbol : String)
    (initial_supply curve_ratio : Nat) : InitResult :=
  { launch :=
      { creator := creator
        mint := mint
        name := name
        symbol := symbol
        initial_supply := initial_supply
        total_supply := initial_supply
        curve_ratio := curve_ratio
        is_active := true }
    creator_token_balance := initial_supply }

/-- Errors observable from buy_tokens: a program error, or a failure of the
external system-program transfer (insufficient buyer lamports). -/
inductive BuyError where
  | launch (e : LaunchError)
  | transferFailed
deriving DecidableEq

/-- State touched by buy_tokens: the Launch account, the lamport balances of
buyer and creator, and the SPL token balances of the two token accounts. -/
structure BuyState where
  launch : Launch
  buyer_lamports : Nat
  creator_lamports : Nat
  buyer_tokens : Nat
  creator_tokens : Nat
deriving DecidableEq

/-- Embedding of buy_tokens (lib.rs lines 49-91): require is_active, price
the buy from the pre-buy total_supply, transfer price lamports from buyer to
creator, mint amount tokens to the buyer, then run the unchecked
`total_supply += amount`, which wraps modulo 2^64 under release-mode Rust
semantics. -/
def buy_tokens (st : BuyState) (amount : Nat) : Except BuyError BuyState :=
  if st.launch.is_active then
    match calculate_price st.launch.total_supply amount st.launch.curve_ratio with
    | Except.error e => Except.error (BuyError.launch e)
    | Except.ok price =>
      if st.buyer_lamports < price then Except.error BuyError.transferFailed
      else Except.ok
        { st with
          launch :=
            { st.launch with
              total_supply := (st.launch.total_supply + amount) % U64_MOD }
          buyer_lamports := st.buyer_lamports - price
          creator_lamports := st.creator_lamports + price
          buyer_tokens := st.buyer_tokens + amount }
  else Except.error (BuyError.launch LaunchError.launchInactive)

/-- Initial BuyState right after initialize_launch, with given starting
lamport balances and an empty buyer token account. -/
def init_buy_state (creator mint : Nat) (name symbol : String)
    (initial_supply curve_ratio buyer_lamports creator_lamports : Nat) :
    BuyState :=
  let r := initialize_launch creator mint name symbol initial_supply curve_ratio
  { launch := r.launch
    buyer_lamports := buyer_lamports
    creator_lamports := creator_lamports
    buyer_tokens := 0
    creator_tokens := r.creator_token_balance }

/-- States reachable from a given start state by sequences of successful
buy_tokens calls (failing calls abort the transaction and change nothing). -/
inductive Reachable (start : BuyState) : BuyState → Prop where
  | refl : Reachable start start
  | buy (st' st'' : BuyState) (amount : Nat) :
      Reachable start st' → buy_tokens st' amount = Except.ok st'' →
      Reachable start st''

/-- Decidable equality for Except results, so concrete runs of the embedded
operations can be checked by evaluation. -/
instance {ε α : Type} [DecidableEq ε] [DecidableEq α] :
    DecidableEq (Except ε α) := fun a b =>
  match a, b with
  | Except.error e1, Except.error e2 =>
    if h : e1 = e2 then Decidable.isTrue (by rw [h])
    else Decidable.isFalse (fun hc => h (Except.error.inj hc))
  | Except.ok v1, Except.ok v2 =>
    if h : v1 = v2 then Decidable.isTrue (by rw [h])
    else Decidable.isFalse (fun hc => h (Except.ok.inj hc))
  | Except.error _, Except.ok _ =>
    Decidable.isFalse (fun hc => Except.noConfusion hc)
  | Except.ok _, Except.error _ =>
    Decidable.isFalse (fun hc => Except.noConfusion hc)

/- ### Helper lemmas shared by several claims -/

/-- The product of two u64 values always fits in the u128 accumulator. -/
theorem u64_mul_lt_u128 {s r : Nat} (hs : s < U64_MOD) (hr : r < U64_MOD) :
    s * r < U128_MOD := by
  have h : s * r ≤ (U64_MOD - 1) * (U64_MOD - 1) :=
    Nat.mul_le_mul (by omega) (by omega)
  have h2 : (U64_MOD - 1) * (U64_MOD - 1) < U128_MOD := by
    norm_num [U64_MOD, U128_MOD]
  exact lt_of_le_of_lt h h2

/-- Closed form of calculate_price when the first widened product fits in
u128: the call errors exactly when the full product does not fit in u64. -/
theorem calculate_price_total (s a r : Nat) (h1 : s * r < U128_MOD) :
    calculate_price s a r =
      if U64_MOD ≤ s * r * a then
        Except.error LaunchError.invalidPriceCalculation
      else Except.ok (s * r * a) := by
  by_cases h2 : s * r * a < U128_MOD
  · by_cases h3 : s * r * a < U64_MOD
    · simp [calculate_price, checked_mul_u128, h1, h2, h3, Nat.not_le.mpr h3]
    · simp [calculate_price, checked_mul_u128, h1, h2, h3, Nat.not_lt.mp h3]
  · have h4 : U64_MOD ≤ s * r * a := by
      have : U64_MOD ≤ U128_MOD := by norm_num [U64_MOD, U128_MOD]
      omega
    simp [calculate_price, checked_mul_u128, h1, h2, h4]

/-- Inversion for a successful price computation: the returned price is the
exact product supply * ratio * amount. -/
theorem calculate_price_ok {s a r p : Nat}
    (h : calculate_price s a r = Except.ok p) : p = s * r * a := by
  by_cases h1 : s * r < U128_MOD
  · rw [calculate_price_total s a r h1] at h
    by_cases h2 : U64_MOD ≤ s * r * a
    · simp [h2] at h
    · simp [h2] at h
      exact h.symm
  · simp [calculate_price, checked_mul_u128, h1] at h

/- ### C1 -/

/-- C1: for u64 inputs, calculate_price returns Ok of the exact product
current_supply * curve_ratio * amount whenever that product fits in u64, and
fails with InvalidPriceCalculation whenever it does not. -/
theorem calculate_price_overflow_spec (s a r : Nat)
    (hs : s < U64_MOD) (ha : a < U64_MOD) (hr : r < U64_MOD) :
    (s * r * a < U64_MOD → calculate_price s a r = Except.ok (s * r * a)) ∧
    (U64_MOD ≤ s * r * a →
      calculate_price s a r =
        Except.error LaunchError.invalidPriceCalculation) := by
  rw [calculate_price_total s a r (u64_mul_lt_u128 hs hr)]
  constructor
  · intro h
    rw [if_neg (Nat.not_le.mpr h)]
  · intro h
    rw [if_pos h]

/-- Witness for C1 at supply 2, amount 3, ratio 4 (product 24 fits in u64). -/
theorem calculate_price_overflow_spec_witness :
    calculate_price 2 3 4 = Except.ok (2 * 4 * 3) :=
  (calculate_price_overflow_spec 2 3 4 (by norm_num [U64_MOD])
    (by norm_num [U64_MOD]) (by norm_num [U64_MOD])).1 (by norm_num [U64_MOD])

/- ### C2 -/

/-- Launch state exhibiting the supply overflow: initial_supply at the u64
maximum, curve_ratio 0 (so the buy price is 0 and the lamport transfer
succeeds with an empty buyer wallet). -/
def overflow_pre : BuyState :=
  init_buy_state 0 1 "Doge2" "DOGE2" (U64_MOD - 1) 0 0 0

/-- State produced by buy_tokens overflow_pre 1: the unchecked addition has
wrapped total_supply to 0. -/
def overflow_post : BuyState :=
  { launch :=
      { creator := 0
        mint := 1
        name := "Doge2"
        symbol := "DOGE2"
        initial_supply := U64_MOD - 1
        total_supply := 0
        curve_ratio := 0
        is_active := true }
    buyer_lamports := 0
    creator_lamports := 0
    buyer_tokens := 1
    creator_tokens := U64_MOD - 1 }

/-- C2: evaluation at the failing input.  On a launch created with
initial_supply = 2^64 - 1, a single successful buy_tokens(amount = 1) leaves
total_supply = 0, violating both total_supply = initial_supply + 1 and
total_supply >= initial_supply: the unchecked `total_supply += amount`
wraps modulo 2^64. -/
theorem total_supply_overflow_bug :
    buy_tokens overflow_pre 1 = Except.ok overflow_post ∧
    overflow_pre.launch.total_supply = U64_MOD - 1 ∧
    overflow_post.launch.total_supply = 0 ∧
    overflow_post.launch.total_supply < overflow_post.launch.initial_supply := by
  refine ⟨by decide, rfl, rfl, by decide⟩

/- ### C3 -/

/-- Scenario A state: freshly initialized launch with initial_supply
1,000,000 and curve_ratio 10; the buyer starts with 10^10 lamports. -/
def scenarioA : BuyState :=
  init_buy_state 0 1 "Doge2" "DOGE2" 1000000 10 10000000000 0

/-- Scenario B state: result of buy_tokens(amount=100) on Scenario A. -/
def scenarioB : BuyState :=
  { launch :=
      { creator := 0
        mint := 1
        name := "Doge2"
        symbol := "DOGE2"
        initial_supply := 1000000
        total_supply := 1000100
        curve_ratio := 10
        is_active := true }
    buyer_lamports := 9000000000
    creator_lamports := 1000000000
    buyer_tokens := 100
    creator_tokens := 1000000 }

/-- Scenario C state: result of a second buy_tokens(amount=100) on B. -/
def scenarioC : BuyState :=
  { launch :=
      { creator := 0
        mint := 1
        name := "Doge2"
        symbol := "DOGE2"
        initial_supply := 1000000
        total_supply := 1000200
        curve_ratio := 10
        is_active := true }
    buyer_lamports := 7999900000
    creator_lamports := 2000100000
    buyer_tokens := 200
    creator_tokens := 1000000 }

/-- C3: pricing uses the pre-buy total_supply.  On Scenario A the first
buy_tokens(amount=100) pays 1,000,000 * 10 * 100 = 1,000,000,000 and leaves
total_supply = 1,000,100; the second buy on that state pays
1,000,100 * 10 * 100 = 1,000,100,000, strictly more (the creator lamport
deltas are exactly the two prices). -/
theorem pre_buy_pricing_scenario :
    calculate_price 1000000 100 10 = Except.ok 1000000000 ∧
    buy_tokens scenarioA 100 = Except.ok scenarioB ∧
    scenarioB.launch.total_supply = 1000100 ∧
    calculate_price 1000100 100 10 = Except.ok 1000100000 ∧
    buy_tokens scenarioB 100 = Except.ok scenarioC ∧
    scenarioB.creator_lamports - scenarioA.creator_lamports = 1000000000 ∧
    scenarioC.creator_lamports - scenarioB.creator_lamports = 1000100000 ∧
    scenarioB.creator_lamports - scenarioA.creator_lamports <
      scenarioC.creator_lamports - scenarioB.creator_lamports := by
  refine ⟨by decide, by decide, by decide, by decide, by decide, by decide,
    by decide, by decide⟩

/- ### C4 -/

/-- C4 counterexample: at supply 0 and curve_ratio 1 > 0, two successful
calls with amounts 1 < 2 both return price 0, so the price is not strictly
increasing in the amount for every fixed supply. -/
theorem price_not_strict_in_amount_at_zero_supply :
    (0 : Nat) < 1 ∧ (1 : Nat) < 2 ∧
    calculate_price 0 1 1 = Except.ok 0 ∧
    calculate_price 0 2 1 = Except.ok 0 := by
  refine ⟨by decide, by decide, by decide, by decide⟩

/-- C4 amended: for fixed supply > 0 and curve_ratio > 0 the price strictly
increases in the amount (where both calls succeed), and for fixed amount and
curve_ratio > 0 the price is non-decreasing in the supply (where both calls
succeed). -/
theorem price_monotonicity :
    (∀ s r a1 a2 p1 p2 : Nat, 0 < s → 0 < r → a1 < a2 →
      calculate_price s a1 r = Except.ok p1 →
      calculate_price s a2 r = Except.ok p2 → p1 < p2) ∧
    (∀ s1 s2 a r p1 p2 : Nat, 0 < r → s1 ≤ s2 →
      calculate_price s1 a r = Except.ok p1 →
      calculate_price s2 a r = Except.ok p2 → p1 ≤ p2) := by
  constructor
  · intro s r a1 a2 p1 p2 hs hr ha h1 h2
    rw [calculate_price_ok h1, calculate_price_ok h2]
    exact mul_lt_mul_of_pos_left ha (Nat.mul_pos hs hr)
  · intro s1 s2 a r p1 p2 hr hs h1 h2
    rw [calculate_price_ok h1, calculate_price_ok h2]
    exact Nat.mul_le_mul (Nat.mul_le_mul hs le_rfl) le_rfl

/-- Witness for C4 amended at supply 1, ratio 1, amounts 1 < 2 and at
supplies 1 <= 2, amount 1. -/
theorem price_monotonicity_witness :
    calculate_price 1 1 1 = Except.ok 1 ∧
    calculate_price 1 2 1 = Except.ok 2 ∧
    calculate_price 2 1 1 = Except.ok 2 ∧
    (1 : Nat) < 2 ∧ (1 : Nat) ≤ 2 :=
  ⟨by decide, by decide, by decide,
    price_monotonicity.1 1 1 1 2 1 2 (by decide) (by decide) (by decide)
      (by decide) (by decide),
    price_monotonicity.2 1 2 1 1 1 2 (by decide) (by decide) (by decide)
      (by decide)⟩

/- ### C5 -/

/-- C5: buying against an inactive launch always fails with LaunchInactive.
In the embedding an Except.error result carries no successor state, which is
exactly the Solana semantics of a failed instruction: the transaction aborts
and total_supply and all balances stay as they were. -/
theorem buy_tokens_inactive_rejection (st : BuyState) (amount : Nat)
    (h : st.launch.is_active = false) :
    buy_tokens st amount =
      Except.error (BuyError.launch LaunchError.launchInactive) := by
  simp [buy_tokens, h]

/-- Launch state with is_active = false, for the C5 witness. -/
def inactive_state : BuyState :=
  { launch :=
      { creator := 0
        mint := 1
        name := "Dead"
        symbol := "DEAD"
        initial_supply := 10
        total_supply := 10
        curve_ratio := 2
        is_active := false }
    buyer_lamports := 100
    creator_lamports := 0
    buyer_tokens := 0
    creator_tokens := 10 }

/-- Witness for C5 on a concrete inactive launch. -/
theorem buy_tokens_inactive_rejection_witness :
    buy_tokens inactive_state 5 =
      Except.error (BuyError.launch LaunchError.launchInactive) :=
  buy_tokens_inactive_rejection inactive_state 5 rfl

/- ### C6 -/

/-- C6: initialize_launch always produces a Launch with
total_supply = initial_supply and is_active = true and mints exactly
initial_supply units into the creator's token account; in particular the
Doge2 scenario yields total_supply = 1,000,000, is_active = true and a
creator balance of 1,000,000 units. -/
theorem initialize_launch_spec :
    (∀ (c m : Nat) (name symbol : String) (s r : Nat),
      (initialize_launch c m name symbol s r).launch.total_supply = s ∧
      (initialize_launch c m name symbol s r).launch.is_active = true ∧
      (initialize_launch c m name symbol s r).launch.initial_supply = s ∧
      (initialize_launch c m name symbol s r).creator_token_balance = s) ∧
    (initialize_launch 0 1 "Doge2" "DOGE2" 1000000 10).launch.total_supply
        = 1000000 ∧
    (initialize_launch 0 1 "Doge2" "DOGE2" 1000000 10).launch.is_active
        = true ∧
    (initialize_launch 0 1 "Doge2" "DOGE2" 1000000 10).creator_token_balance
        = 1000000 :=
  ⟨fun _ _ _ _ _ _ => ⟨rfl, rfl, rfl, rfl⟩, rfl, rfl, rfl⟩

/- ### C7 -/

/-- C7: calculate_price is deterministic and side-effect free.  It is a
pure function of its three arguments, so two calls with identical inputs
return identical results. -/
theorem calculate_price_deterministic (s1 a1 r1 s2 a2 r2 : Nat)
    (hs : s1 = s2) (ha : a1 = a2) (hr : r1 = r2) :
    calculate_price s1 a1 r1 = calculate_price s2 a2 r2 := by
  rw [hs, ha, hr]

/-- Witness for C7 at inputs (7, 8, 9). -/
theorem calculate_price_deterministic_witness :
    calculate_price 7 8 9 = calculate_price 7 8 9 :=
  calculate_price_deterministic 7 8 9 7 8 9 rfl rfl rfl

/- ### C8 -/

/-- A successful buy_tokens call copies is_active unchanged into the new
state: the ok branch only rewrites total_supply and the four balances. -/
theorem buy_tokens_preserves_active (st st' : BuyState) (a : Nat)
    (h : buy_tokens st a = Except.ok st') :
    st'.launch.is_active = st.launch.is_active := by
  unfold buy_tokens at h
  split at h
  · split at h
    · exact absurd h (by simp)
    · split at h
      · exact absurd h (by simp)
      · rw [← Except.ok.inj h]
  · exact absurd h (by simp)

/-- C8: is_active is set true at creation and never set false afterwards:
every state reachable from a freshly initialized launch by any sequence of
operations still has is_active = true (failing operations abort the
transaction and produce no state at all). -/
theorem is_active_always_true (c m : Nat) (name symbol : String)
    (s r bl cl : Nat) (st' : BuyState)
    (h : Reachable (init_buy_state c m name symbol s r bl cl) st') :
    st'.launch.is_active = true := by
  induction h with
  | refl => rfl
  | buy st1 st2 a hre hok ih =>
    exact (buy_tokens_preserves_active st1 st2 a hok).trans ih

/-- Witness for C8 at a concrete freshly initialized launch. -/
theorem is_active_always_true_witness :
    (init_buy_state 0 1 "Doge2" "DOGE2" 5 2 100 0).launch.is_active = true :=
  is_active_always_true 0 1 "Doge2" "DOGE2" 5 2 100 0 _ Reachable.refl

/- ### C9 -/

/-- C9: for u64 inputs the first widened multiplication
current_supply * curve_ratio always fits in u128, so its error branch is
unreachable; calculate_price never returns LaunchInactive, and it fails
(necessarily with InvalidPriceCalculation) exactly when the full product
does not fit in u64, i.e. only at the second multiplication or at the final
narrowing. -/
theorem first_widened_mul_never_overflows (s a r : Nat)
    (hs : s < U64_MOD) (hr : r < U64_MOD) :
    checked_mul_u128 s r = some (s * r) ∧
    calculate_price s a r ≠ Except.error LaunchError.launchInactive ∧
    (calculate_price s a r = Except.error LaunchError.invalidPriceCalculation
      ↔ U64_MOD ≤ s * r * a) := by
  have h1 := u64_mul_lt_u128 hs hr
  refine ⟨by simp [checked_mul_u128, h1], ?_, ?_⟩
  · rw [calculate_price_total s a r h1]
    by_cases h2 : U64_MOD ≤ s * r * a
    · rw [if_pos h2]; simp
    · rw [if_neg h2]; simp
  · rw [calculate_price_total s a r h1]
    by_cases h2 : U64_MOD ≤ s * r * a
    · simp [h2]
    · simp [h2]

/-- Witness for C9 at supply 2^63, amount 2, ratio 2, where the product
2^65 overflows u64 and the call indeed fails at the later stages. -/
theorem first_widened_mul_never_overflows_witness :
    checked_mul_u128 (2 ^ 63) 2 = some (2 ^ 63 * 2) ∧
    calculate_price (2 ^ 63) 2 2 ≠ Except.error LaunchError.launchInactive ∧
    (calculate_price (2 ^ 63) 2 2 =
        Except.error LaunchError.invalidPriceCalculation
      ↔ U64_MOD ≤ 2 ^ 63 * 2 * 2) :=
  first_widened_mul_never_overflows (2 ^ 63) 2 2 (by norm_num [U64_MOD])
    (by norm_num [U64_MOD])

/- ### C10 -/

/-- A zero supply or a zero curve ratio makes the price zero without any
possibility of overflow. -/
theorem calculate_price_zero (s a r : Nat) (h : s = 0 ∨ r = 0) :
    calculate_price s a r = Except.ok 0 := by
  have h1 : s * r = 0 := by
    rcases h with h | h <;> simp [h]
  have h2 : (0 : Nat) < U128_MOD := by norm_num [U128_MOD]
  have h3 : (0 : Nat) < U64_MOD := by norm_num [U64_MOD]
  simp [calculate_price, checked_mul_u128, h1, h2, h3]

/-- C10: whenever any of current_supply, amount or curve_ratio is zero,
calculate_price returns Ok(0); consequently a buy on an active launch with
curve_ratio = 0 (or total_supply = 0) succeeds, charges a zero price (both
lamport balances unchanged) and still mints the full amount to the buyer. -/
theorem zero_price_inputs :
    (∀ s a r : Nat, s < U64_MOD → r < U64_MOD → s = 0 ∨ a = 0 ∨ r = 0 →
      calculate_price s a r = Except.ok 0) ∧
    (∀ (st : BuyState) (a : Nat), st.launch.is_active = true →
      st.launch.curve_ratio = 0 ∨ st.launch.total_supply = 0 →
      buy_tokens st a = Except.ok
        { st with
          launch :=
            { st.launch with
              total_supply := (st.launch.total_supply + a) % U64_MOD }
          buyer_tokens := st.buyer_tokens + a }) := by
  constructor
  · intro s a r hs hr hz
    rcases hz with hz | hz | hz
    · exact calculate_price_zero s a r (Or.inl hz)
    · rw [calculate_price_total s a r (u64_mul_lt_u128 hs hr)]
      have h3 : ¬ U64_MOD ≤ s * r * a := by
        rw [hz]
        simp [U64_MOD]
      rw [if_neg h3, hz, Nat.mul_zero]
    · exact calculate_price_zero s a r (Or.inr hz)
  · intro st a hact hz
    have hp : calculate_price st.launch.total_supply a st.launch.curve_ratio
        = Except.ok 0 := by
      rcases hz with hz | hz
      · exact calculate_price_zero _ _ _ (Or.inr hz)
      · exact calculate_price_zero _ _ _ (Or.inl hz)
    simp [buy_tokens, hact, hp, Nat.not_lt_zero]

/-- Active launch with curve_ratio = 0, for the C10 witness. -/
def zero_ratio_state : BuyState :=
  { launch :=
      { creator := 0
        mint := 1
        name := "Free"
        symbol := "FREE"
        initial_supply := 50
        total_supply := 50
        curve_ratio := 0
        is_active := true }
    buyer_lamports := 0
    creator_lamports := 7
    buyer_tokens := 3
    creator_tokens := 50 }

/-- Witness for C10: a zero supply gives price 0, and a buy of 4 units on a
zero-ratio launch succeeds for free. -/
theorem zero_price_inputs_witness :
    calculate_price 0 5 3 = Except.ok 0 ∧
    buy_tokens zero_ratio_state 4 = Except.ok
      { zero_ratio_state with
        launch :=
          { zero_ratio_state.launch with
            total_supply :=
              (zero_ratio_state.launch.total_supply + 4) % U64_MOD }
        buyer_tokens := zero_ratio_state.buyer_tokens + 4 } :=
  ⟨zero_price_inputs.1 0 5 3 (by norm_num [U64_MOD]) (by norm_num [U64_MOD])
      (Or.inl rfl),
    zero_price_inputs.2 zero_ratio_state 4 rfl (Or.inl rfl)⟩

end MemeLauncher
